import Mathlib

/-!
# Visible exception propagation check — a shallow embedding

This file embeds the clang-tidy check
`readability::VisibleExceptionPropagationCheck`
(`clang-tools-extra/clang-tidy/readability/VisibleExceptionPropagationCheck.cpp`)
as executable Lean definitions and proves properties of its matcher logic.

The check registers four AST matchers (`decl-bad-mark`, `decl-missing-mark`,
`stmt-bad-mark`, `stmt-missing-mark`); the match callback emits exactly one
diagnostic per matcher match.  The matcher combinators used by the check look
only at a node itself, its direct parent (`hasParent`), and its descendants
(`hasDescendant`), so each matcher is embedded as a Boolean function of the
node and (where `hasParent` is used) of the node's parent.  The AST traversal
visits every node exactly once, with its unique parent, so per-node statements
about these functions are statements about the emitted diagnostic set.
-/

namespace VisibleExceptionPropagation

/-- A resolved callable (function or constructor) together with the two
externally computed facts the check consults: `isNoThrow` (the clang matcher
`isNoThrow()`: the callable has a non-throwing exception specification) and
`isExternC` (the matcher `isExternC()`: the callable has C language linkage). -/
structure Callable where
  isNoThrow : Bool
  isExternC : Bool
deriving DecidableEq, Repr

/-- Attribute kinds.  `maybeUnhandled` is `attr::Kind::MaybeUnhandled`, the
annotation the check is about; `otherAttr` stands for any other attribute. -/
inductive AttrKind where
  | maybeUnhandled
  | otherAttr
deriving DecidableEq, Repr

/-- The fragment of the clang AST the check's matchers can distinguish.
Expressions (`callExpr`, `constructExpr`, `throwExpr`, `otherExpr`) are
statements, as in clang (`Expr <: Stmt`); declarations (`varDecl`,
`functionDecl`) are not.  A call or construction carries the `Callable` it
resolves to, or `none` when `hasDeclaration(functionDecl(...))` would fail
(unresolved or indirect callee).  `attributedStmt` is clang's
`AttributedStmt`: an attribute list wrapped around a sub-statement.
`otherStmt`/`otherExpr` stand for any statement/expression kind the matchers
do not name (return statements, labels, operators, ...), with their child
nodes. -/
inductive Node where
  | callExpr (callee : Option Callable) (args : List Node)
  | constructExpr (callee : Option Callable) (args : List Node)
  | throwExpr (arg : Option Node)
  | otherExpr (children : List Node)
  | compoundStmt (body : List Node)
  | attributedStmt (attrs : List AttrKind) (sub : Node)
  | declStmt (decls : List Node)
  | ifStmt (cond thenBranch : Node) (elseBranch : Option Node)
  | whileStmt (cond body : Node)
  | doStmt (body cond : Node)
  | forStmt (ini cond inc : Option Node) (body : Node)
  | switchStmt (cond body : Node)
  | caseStmt (sub : Node)
  | otherStmt (children : List Node)
  | varDecl (attrs : List AttrKind) (ini : Option Node)
  | functionDecl (attrs : List AttrKind) (body : Option Node)

namespace Node

/-- The node is an expression (clang `expr()` matcher). -/
def isExpr : Node → Bool
  | .callExpr _ _ => true
  | .constructExpr _ _ => true
  | .throwExpr _ => true
  | .otherExpr _ => true
  | _ => false

/-- The node is a declaration (clang `decl()` matcher). -/
def isDecl : Node → Bool
  | .varDecl _ _ => true
  | .functionDecl _ _ => true
  | _ => false

/-- The node is a statement (clang `stmt()` matcher); in clang every
expression is a statement and declarations are not statements. -/
def isStmt (n : Node) : Bool := !n.isDecl

/-- Kind test for `compoundStmt()`. -/
def isCompoundStmt : Node → Bool
  | .compoundStmt _ => true
  | _ => false

/-- Kind test for `declStmt()`. -/
def isDeclStmt : Node → Bool
  | .declStmt _ => true
  | _ => false

/-- Kind test for `cxxThrowExpr()`. -/
def isThrowExpr : Node → Bool
  | .throwExpr _ => true
  | _ => false

/-- Kind test for `attributedStmt()`. -/
def isAttributedStmt : Node → Bool
  | .attributedStmt _ _ => true
  | _ => false

/-- Kind test for `caseStmt()`. -/
def isCaseStmt : Node → Bool
  | .caseStmt _ => true
  | _ => false

/-- Kind test for `ifStmt()`. -/
def isIfStmt : Node → Bool
  | .ifStmt _ _ _ => true
  | _ => false

/-- Kind test for `forStmt()`. -/
def isForStmt : Node → Bool
  | .forStmt _ _ _ _ => true
  | _ => false

/-- Kind test for `whileStmt()`. -/
def isWhileStmt : Node → Bool
  | .whileStmt _ _ => true
  | _ => false

/-- Kind test for `switchStmt()`. -/
def isSwitchStmt : Node → Bool
  | .switchStmt _ _ => true
  | _ => false

/-- Kind test for `doStmt()`. -/
def isDoStmt : Node → Bool
  | .doStmt _ _ => true
  | _ => false

/-- Kind test for `varDecl()`. -/
def isVarDecl : Node → Bool
  | .varDecl _ _ => true
  | _ => false

/-- The node is one of the five control statements the check names. -/
def isControlStmt (n : Node) : Bool :=
  n.isIfStmt || n.isForStmt || n.isWhileStmt || n.isSwitchStmt || n.isDoStmt

end Node

/-- The custom matcher `hasStmtAttr(kind)`: scan the attribute list for an
attribute of the given kind. -/
def hasStmtAttr (kind : AttrKind) (attrs : List AttrKind) : Bool :=
  attrs.any (fun a => a == kind)

/-- `hasThrowingFunctionDecl()`: the callee resolves to a function
declaration that is neither `isNoThrow` nor `isExternC`.  An unresolved
callee (`none`) makes `hasDeclaration` fail, so the result is `false`. -/
def hasThrowingFunctionDecl : Option Callable → Bool
  | some f => !(f.isNoThrow || f.isExternC)
  | none => false

/-- `throwingExpr()`: a call or object construction whose callee satisfies
`hasThrowingFunctionDecl`. -/
def throwingExpr : Node → Bool
  | .callExpr c _ => hasThrowingFunctionDecl c
  | .constructExpr c _ => hasThrowingFunctionDecl c
  | _ => false

mutual

/-- The node itself is a `throwingExpr`, or some descendant of it is
(clang `hasDescendant(throwingExpr())`, which traverses the whole subtree). -/
def containsThrowingExpr : Node → Bool
  | .callExpr c args => hasThrowingFunctionDecl c || containsThrowingList args
  | .constructExpr c args => hasThrowingFunctionDecl c || containsThrowingList args
  | .throwExpr a => containsThrowingOpt a
  | .otherExpr cs => containsThrowingList cs
  | .compoundStmt b => containsThrowingList b
  | .attributedStmt _ s => containsThrowingExpr s
  | .declStmt ds => containsThrowingList ds
  | .ifStmt c t e => containsThrowingExpr c || containsThrowingExpr t || containsThrowingOpt e
  | .whileStmt c b => containsThrowingExpr c || containsThrowingExpr b
  | .doStmt b c => containsThrowingExpr b || containsThrowingExpr c
  | .forStmt i c inc b =>
      containsThrowingOpt i || containsThrowingOpt c || containsThrowingOpt inc
        || containsThrowingExpr b
  | .switchStmt c b => containsThrowingExpr c || containsThrowingExpr b
  | .caseStmt s => containsThrowingExpr s
  | .otherStmt cs => containsThrowingList cs
  | .varDecl _ i => containsThrowingOpt i
  | .functionDecl _ b => containsThrowingOpt b

/-- `containsThrowingExpr` on an optional child. -/
def containsThrowingOpt : Option Node → Bool
  | none => false
  | some n => containsThrowingExpr n

/-- `containsThrowingExpr` on a list of children. -/
def containsThrowingList : List Node → Bool
  | [] => false
  | n :: ns => containsThrowingExpr n || containsThrowingList ns

end

/-- `throwingExprSelfOrDescendant()`:
`expr(anyOf(throwingExpr(), hasDescendant(throwingExpr())))` — the node must
be an expression, and it or a descendant must be a `throwingExpr`. -/
def throwingExprSelfOrDescendant (n : Node) : Bool :=
  n.isExpr && containsThrowingExpr n

/-- `throwingExprSelfOrDescendant` lifted to an optional sub-node; `none`
(an absent for-loop clause, say) does not match. -/
def throwingOptClause : Option Node → Bool
  | none => false
  | some n => throwingExprSelfOrDescendant n

/-- `markedDecl()`: `decl(hasAttr(attr::Kind::MaybeUnhandled))` — a
declaration carrying the annotation attribute. -/
def markedDecl : Node → Bool
  | .varDecl attrs _ => hasStmtAttr .maybeUnhandled attrs
  | .functionDecl attrs _ => hasStmtAttr .maybeUnhandled attrs
  | _ => false

/-- `markedStmt()`:
`stmt(hasParent(attributedStmt(hasStmtAttr(attr::Kind::MaybeUnhandled))))` —
a statement whose direct parent is an `AttributedStmt` carrying the
annotation.  `p` is the node's parent (`none` at the root). -/
def markedStmt (n : Node) (p : Option Node) : Bool :=
  n.isStmt &&
    match p with
    | some (.attributedStmt attrs _) => hasStmtAttr .maybeUnhandled attrs
    | _ => false

/-- `throwingDecl()`: `varDecl(hasDescendant(throwingExpr()))` — only
variable declarations, with a throwing call or construction somewhere
beneath (in the initializer subtree). -/
def throwingDecl : Node → Bool
  | .varDecl _ i => containsThrowingOpt i
  | _ => false

/-- `throwingIfStmt()`: an `if` whose condition is (or contains) a throwing
expression. -/
def throwingIfStmt : Node → Bool
  | .ifStmt c _ _ => throwingExprSelfOrDescendant c
  | _ => false

/-- `throwingForStmt()`: a `for` whose loop init, condition or increment is
(or contains) a throwing expression.  Each clause is matched by the `expr`
matcher `throwingExprSelfOrDescendant`, so a `DeclStmt` loop init never
matches. -/
def throwingForStmt : Node → Bool
  | .forStmt i c inc _ =>
      throwingOptClause i || throwingOptClause c || throwingOptClause inc
  | _ => false

/-- `throwingWhileStmt()`: a `while` whose condition is (or contains) a
throwing expression. -/
def throwingWhileStmt : Node → Bool
  | .whileStmt c _ => throwingExprSelfOrDescendant c
  | _ => false

/-- `throwingSwitchStmt()`: a `switch` whose condition is (or contains) a
throwing expression. -/
def throwingSwitchStmt : Node → Bool
  | .switchStmt c _ => throwingExprSelfOrDescendant c
  | _ => false

/-- `throwingDoStmt()`: a `do` whose condition is (or contains) a throwing
expression. -/
def throwingDoStmt : Node → Bool
  | .doStmt _ c => throwingExprSelfOrDescendant c
  | _ => false

/-- `throwingRegularStmt()`: a statement that is none of the five control
statements and matches `throwingExprSelfOrDescendant` (hence, being matched
by an `expr(...)` matcher, is itself an expression). -/
def throwingRegularStmt (n : Node) : Bool :=
  !n.isIfStmt && !n.isForStmt && !n.isWhileStmt && !n.isSwitchStmt
    && !n.isDoStmt && throwingExprSelfOrDescendant n

/-- The `anyOf(...)` alternative inside `throwingStmt()`: the per-kind
throw-potential classification, before the structural exclusions and the
parent restriction are applied. -/
def throwingStmtAnyOf (n : Node) : Bool :=
  throwingIfStmt n || throwingForStmt n || throwingWhileStmt n
    || throwingSwitchStmt n || throwingDoStmt n || throwingRegularStmt n

/-- The parent restriction inside `throwingStmt()`:
`anyOf(hasParent(compoundStmt()), hasParent(attributedStmt()),
hasParent(caseStmt()))` — the statement sits at a position an annotation
could attach to. -/
def attributableParent : Option Node → Bool
  | some q => q.isCompoundStmt || q.isAttributedStmt || q.isCaseStmt
  | none => false

/-- `throwingStmt()`: a statement that is not a `DeclStmt` (handled by the
declaration matchers), not a `CompoundStmt` (too coarse), not a
`CXXThrowExpr` (explicitly throws already), not an `AttributedStmt` (only
its sub-statement is matched), whose parent is a compound statement, an
attributed statement or a case label, and that satisfies one of the per-kind
throw-potential alternatives. -/
def throwingStmt (n : Node) (p : Option Node) : Bool :=
  n.isStmt
    && (!n.isDeclStmt && !n.isCompoundStmt && !n.isThrowExpr && !n.isAttributedStmt)
    && attributableParent p
    && throwingStmtAnyOf n

/-- The `decl-bad-mark` matcher: `decl(allOf(markedDecl(),
unless(throwingDecl())))`.  A match emits one
"Cannot implicitly throw, remove ..." diagnostic on the declaration. -/
def declBadMark (n : Node) : Bool :=
  n.isDecl && (markedDecl n && !throwingDecl n)

/-- The `decl-missing-mark` matcher: `decl(allOf(unless(markedDecl()),
throwingDecl()))`.  A match emits one
"May implicitly throw, add ..." diagnostic on the declaration. -/
def declMissingMark (n : Node) : Bool :=
  n.isDecl && (!markedDecl n && throwingDecl n)

/-- The `stmt-bad-mark` matcher: `stmt(allOf(markedStmt(),
unless(throwingStmt())))`. -/
def stmtBadMark (n : Node) (p : Option Node) : Bool :=
  n.isStmt && (markedStmt n p && !throwingStmt n p)

/-- The `stmt-missing-mark` matcher: `stmt(allOf(unless(markedStmt()),
throwingStmt()))`. -/
def stmtMissingMark (n : Node) (p : Option Node) : Bool :=
  n.isStmt && (!markedStmt n p && throwingStmt n p)

/-- The number of diagnostics the check emits for one node (with parent
`p`): one per registered matcher that matches the node. -/
def diagCount (n : Node) (p : Option Node) : Nat :=
  (cond (declBadMark n) 1 0) + (cond (declMissingMark n) 1 0)
    + (cond (stmtBadMark n p) 1 0) + (cond (stmtMissingMark n p) 1 0)

/-! ## Helper predicates for stating claims

`calleesSatisfy pr` says every call or construction in a subtree has a callee
fact satisfying `pr`; it lets us state hypotheses such as "the node's only
calls are to extern-linkage callables".  `markFree` says the subtree carries
no `maybe_unhandled` annotation at all; in an annotation-free tree no
statement can be covered by an ancestor's annotation in the sense of the
specification's suppression rules. -/

mutual

/-- Every call/construction expression in the subtree has a callee fact
satisfying `pr`. -/
def calleesSatisfy (pr : Option Callable → Bool) : Node → Bool
  | .callExpr c args => pr c && calleesSatisfyList pr args
  | .constructExpr c args => pr c && calleesSatisfyList pr args
  | .throwExpr a => calleesSatisfyOpt pr a
  | .otherExpr cs => calleesSatisfyList pr cs
  | .compoundStmt b => calleesSatisfyList pr b
  | .attributedStmt _ s => calleesSatisfy pr s
  | .declStmt ds => calleesSatisfyList pr ds
  | .ifStmt c t e => calleesSatisfy pr c && calleesSatisfy pr t && calleesSatisfyOpt pr e
  | .whileStmt c b => calleesSatisfy pr c && calleesSatisfy pr b
  | .doStmt b c => calleesSatisfy pr b && calleesSatisfy pr c
  | .forStmt i c inc b =>
      calleesSatisfyOpt pr i && calleesSatisfyOpt pr c && calleesSatisfyOpt pr inc
        && calleesSatisfy pr b
  | .switchStmt c b => calleesSatisfy pr c && calleesSatisfy pr b
  | .caseStmt s => calleesSatisfy pr s
  | .otherStmt cs => calleesSatisfyList pr cs
  | .varDecl _ i => calleesSatisfyOpt pr i
  | .functionDecl _ b => calleesSatisfyOpt pr b

/-- `calleesSatisfy` on an optional child. -/
def calleesSatisfyOpt (pr : Option Callable → Bool) : Option Node → Bool
  | none => true
  | some n => calleesSatisfy pr n

/-- `calleesSatisfy` on a list of children. -/
def calleesSatisfyList (pr : Option Callable → Bool) : List Node → Bool
  | [] => true
  | n :: ns => calleesSatisfy pr n && calleesSatisfyList pr ns

end

/-- The callee fact of a call resolved to an extern-linkage callable. -/
def externLinkageFact : Option Callable → Bool
  | some f => f.isExternC
  | none => false

/-- The callee fact of a call whose callee is absent or unresolved. -/
def unresolvedFact : Option Callable → Bool
  | some _ => false
  | none => true

mutual

/-- The subtree carries no `maybe_unhandled` annotation anywhere: no
attributed statement and no declaration in it holds the attribute. -/
def markFree : Node → Bool
  | .callExpr _ args => markFreeList args
  | .constructExpr _ args => markFreeList args
  | .throwExpr a => markFreeOpt a
  | .otherExpr cs => markFreeList cs
  | .compoundStmt b => markFreeList b
  | .attributedStmt attrs s => !hasStmtAttr .maybeUnhandled attrs && markFree s
  | .declStmt ds => markFreeList ds
  | .ifStmt c t e => markFree c && markFree t && markFreeOpt e
  | .whileStmt c b => markFree c && markFree b
  | .doStmt b c => markFree b && markFree c
  | .forStmt i c inc b => markFreeOpt i && markFreeOpt c && markFreeOpt inc && markFree b
  | .switchStmt c b => markFree c && markFree b
  | .caseStmt s => markFree s
  | .otherStmt cs => markFreeList cs
  | .varDecl attrs i => !hasStmtAttr .maybeUnhandled attrs && markFreeOpt i
  | .functionDecl attrs b => !hasStmtAttr .maybeUnhandled attrs && markFreeOpt b

/-- `markFree` on an optional child. -/
def markFreeOpt : Option Node → Bool
  | none => true
  | some n => markFree n

/-- `markFree` on a list of children. -/
def markFreeList : List Node → Bool
  | [] => true
  | n :: ns => markFree n && markFreeList ns

end

/-! ## Concrete nodes used in examples, witnesses and counterexamples -/

/-- A callable that can throw: no exception specification, C++ linkage. -/
def throwingCallee : Callable := ⟨false, false⟩

/-- A callable declared non-throwing. -/
def noThrowCallee : Callable := ⟨true, false⟩

/-- An extern "C" callable with no declared exception specification. -/
def externCCallee : Callable := ⟨false, true⟩

/-- A call to a throwing callable. -/
def egThrowCall : Node := .callExpr (some throwingCallee) []

/-- A call to an extern "C" callable. -/
def egExternCall : Node := .callExpr (some externCCallee) []

/-- A call whose callee could not be resolved. -/
def egUnresolvedCall : Node := .callExpr none []

/-- Wrap a statement in an `AttributedStmt` carrying the annotation. -/
def egMU (s : Node) : Node := .attributedStmt [.maybeUnhandled] s

/-- `if (...) f();` — an if statement with an unbraced throwing then-branch
and no annotation anywhere. -/
def egIfUnbraced : Node := .ifStmt (.otherExpr []) egThrowCall none

/-- `{ f(); }` — a compound body holding one throwing call. -/
def egBodyCompound : Node := .compoundStmt [egThrowCall]

/-- `[[clang::maybe_unhandled]] { f(); }` — the annotated body grouping. -/
def egBodyAttr : Node := egMU egBodyCompound

/-- `while (...) [[clang::maybe_unhandled]] { f(); }`. -/
def egCtrl : Node := .whileStmt (.otherExpr []) egBodyAttr

/-- `[[clang::maybe_unhandled]] while (...) [[clang::maybe_unhandled]]
{ f(); }` — an annotated control statement whose annotated body grouping
holds an unmarked throwing call. -/
def egRoot : Node := egMU egCtrl

section Sanity

example : hasThrowingFunctionDecl (some throwingCallee) = true := by decide
example : hasThrowingFunctionDecl (some externCCallee) = false := by decide
example : hasThrowingFunctionDecl none = false := by decide

-- Scenario 1: unmarked local variable initialized by a throwing call.
example :
    declMissingMark (.varDecl [] (some (.callExpr (some throwingCallee) []))) = true := by
  decide

-- Scenario 2: the same variable, marked.
example :
    diagCount (.varDecl [.maybeUnhandled] (some (.callExpr (some throwingCallee) [])))
      none = 0 := by decide

-- Scenario 3: marked variable with a non-throwing initializer.
example :
    declBadMark (.varDecl [.maybeUnhandled] (some (.callExpr (some noThrowCallee) []))) =
      true := by decide

-- Scenario 4 shapes: a marked if with throwing condition is silent ...
example :
    diagCount (.ifStmt (.callExpr (some throwingCallee) []) (.compoundStmt []) none)
      (some (.attributedStmt [.maybeUnhandled]
        (.ifStmt (.callExpr (some throwingCallee) []) (.compoundStmt []) none))) = 0 := by
  decide

-- ... its condition, whose parent is the if itself, is silent ...
example :
    diagCount (.callExpr (some throwingCallee) [])
      (some (.ifStmt (.callExpr (some throwingCallee) []) (.compoundStmt []) none)) = 0 := by
  decide

-- ... and an unmarked throwing statement in the if's compound body is flagged.
example :
    stmtMissingMark (.callExpr (some throwingCallee) [])
      (some (.compoundStmt [.callExpr (some throwingCallee) []])) = true := by decide

-- Scenario 5: an unmarked throw of a throwing construction is silent.
example :
    diagCount (.throwExpr (some (.constructExpr (some throwingCallee) [])))
      (some (.compoundStmt [])) = 0 := by decide

-- Scenario 6: a marked call to an extern "C" callable gets a bad mark.
example :
    stmtBadMark (.callExpr (some externCCallee) [])
      (some (.attributedStmt [.maybeUnhandled] (.callExpr (some externCCallee) []))) =
      true := by decide

-- A marked compound statement gets a bad mark (grouping claim fails).
example :
    stmtBadMark (.compoundStmt [])
      (some (.attributedStmt [.maybeUnhandled] (.compoundStmt []))) = true := by decide

-- An unmarked throwing child of a marked body-compound is still flagged
-- (the coverage-through-grouping claim fails).
example :
    stmtMissingMark (.callExpr (some throwingCallee) [])
      (some (.compoundStmt [.callExpr (some throwingCallee) []])) = true := by decide

-- An unbraced throwing if-body is never flagged (parent is the if).
example :
    diagCount (.callExpr (some throwingCallee) [])
      (some (.ifStmt (.otherExpr []) (.callExpr (some throwingCallee) []) none)) = 0 := by
  decide

end Sanity

/-! ## Helper lemmas -/

theorem throwingExprSelfOrDescendant_eq_false {n : Node}
    (h : containsThrowingExpr n = false) :
    throwingExprSelfOrDescendant n = false := by
  simp [throwingExprSelfOrDescendant, h]

theorem throwingOptClause_eq_false {o : Option Node}
    (h : containsThrowingOpt o = false) : throwingOptClause o = false := by
  cases o with
  | none => simp [throwingOptClause]
  | some n =>
      simp only [containsThrowingOpt] at h
      simp [throwingOptClause, throwingExprSelfOrDescendant, h]

/-- A node without a throwing expression beneath it matches none of the
per-kind throw-potential alternatives. -/
theorem throwingStmtAnyOf_eq_false {n : Node} (h : containsThrowingExpr n = false) :
    throwingStmtAnyOf n = false := by
  cases n <;>
    simp_all [throwingStmtAnyOf, throwingIfStmt, throwingForStmt, throwingWhileStmt,
      throwingSwitchStmt, throwingDoStmt, throwingRegularStmt,
      throwingExprSelfOrDescendant, throwingOptClause_eq_false, containsThrowingExpr,
      Node.isExpr, Node.isIfStmt, Node.isForStmt, Node.isWhileStmt, Node.isSwitchStmt,
      Node.isDoStmt]

theorem throwingStmt_eq_false {n : Node} (p : Option Node)
    (h : containsThrowingExpr n = false) : throwingStmt n p = false := by
  simp [throwingStmt, throwingStmtAnyOf_eq_false h]

theorem throwingDecl_eq_false {n : Node} (h : containsThrowingExpr n = false) :
    throwingDecl n = false := by
  cases n <;> simp_all [throwingDecl, containsThrowingExpr]

mutual

/-- If every callee fact in the subtree satisfies a predicate that rules out
`hasThrowingFunctionDecl`, the subtree contains no throwing expression. -/
theorem calleesSatisfy_no_throw (pr : Option Callable → Bool)
    (hpr : ∀ c, pr c = true → hasThrowingFunctionDecl c = false) :
    ∀ n : Node, calleesSatisfy pr n = true → containsThrowingExpr n = false
  | .callExpr c args => by
      have h1 := hpr c
      have h2 := calleesSatisfyList_no_throw pr hpr args
      simp [calleesSatisfy, containsThrowingExpr]; tauto
  | .constructExpr c args => by
      have h1 := hpr c
      have h2 := calleesSatisfyList_no_throw pr hpr args
      simp [calleesSatisfy, containsThrowingExpr]; tauto
  | .throwExpr a => by
      have h1 := calleesSatisfyOpt_no_throw pr hpr a
      simp [calleesSatisfy, containsThrowingExpr]; tauto
  | .otherExpr cs => by
      have h1 := calleesSatisfyList_no_throw pr hpr cs
      simp [calleesSatisfy, containsThrowingExpr]; tauto
  | .compoundStmt b => by
      have h1 := calleesSatisfyList_no_throw pr hpr b
      simp [calleesSatisfy, containsThrowingExpr]; tauto
  | .attributedStmt attrs s => by
      have h1 := calleesSatisfy_no_throw pr hpr s
      simp [calleesSatisfy, containsThrowingExpr]; tauto
  | .declStmt ds => by
      have h1 := calleesSatisfyList_no_throw pr hpr ds
      simp [calleesSatisfy, containsThrowingExpr]; tauto
  | .ifStmt c t e => by
      have h1 := calleesSatisfy_no_throw pr hpr c
      have h2 := calleesSatisfy_no_throw pr hpr t
      have h3 := calleesSatisfyOpt_no_throw pr hpr e
      simp [calleesSatisfy, containsThrowingExpr]; tauto
  | .whileStmt c b => by
      have h1 := calleesSatisfy_no_throw pr hpr c
      have h2 := calleesSatisfy_no_throw pr hpr b
      simp [calleesSatisfy, containsThrowingExpr]; tauto
  | .doStmt b c => by
      have h1 := calleesSatisfy_no_throw pr hpr b
      have h2 := calleesSatisfy_no_throw pr hpr c
      simp [calleesSatisfy, containsThrowingExpr]; tauto
  | .forStmt i c inc b => by
      have h1 := calleesSatisfyOpt_no_throw pr hpr i
      have h2 := calleesSatisfyOpt_no_throw pr hpr c
      have h3 := calleesSatisfyOpt_no_throw pr hpr inc
      have h4 := calleesSatisfy_no_throw pr hpr b
      simp [calleesSatisfy, containsThrowingExpr]; tauto
  | .switchStmt c b => by
      have h1 := calleesSatisfy_no_throw pr hpr c
      have h2 := calleesSatisfy_no_throw pr hpr b
      simp [calleesSatisfy, containsThrowingExpr]; tauto
  | .caseStmt s => by
      have h1 := calleesSatisfy_no_throw pr hpr s
      simp [calleesSatisfy, containsThrowingExpr]; tauto
  | .otherStmt cs => by
      have h1 := calleesSatisfyList_no_throw pr hpr cs
      simp [calleesSatisfy, containsThrowingExpr]; tauto
  | .varDecl attrs i => by
      have h1 := calleesSatisfyOpt_no_throw pr hpr i
      simp [calleesSatisfy, containsThrowingExpr]; tauto
  | .functionDecl attrs b => by
      have h1 := calleesSatisfyOpt_no_throw pr hpr b
      simp [calleesSatisfy, containsThrowingExpr]; tauto

/-- `calleesSatisfy_no_throw` on an optional child. -/
theorem calleesSatisfyOpt_no_throw (pr : Option Callable → Bool)
    (hpr : ∀ c, pr c = true → hasThrowingFunctionDecl c = false) :
    ∀ o : Option Node, calleesSatisfyOpt pr o = true → containsThrowingOpt o = false
  | none => by simp [calleesSatisfyOpt, containsThrowingOpt]
  | some n => by
      have h1 := calleesSatisfy_no_throw pr hpr n
      simp [calleesSatisfyOpt, containsThrowingOpt]; tauto

/-- `calleesSatisfy_no_throw` on a list of children. -/
theorem calleesSatisfyList_no_throw (pr : Option Callable → Bool)
    (hpr : ∀ c, pr c = true → hasThrowingFunctionDecl c = false) :
    ∀ l : List Node, calleesSatisfyList pr l = true → containsThrowingList l = false
  | [] => by simp [calleesSatisfyList, containsThrowingList]
  | n :: ns => by
      have h1 := calleesSatisfy_no_throw pr hpr n
      have h2 := calleesSatisfyList_no_throw pr hpr ns
      simp [calleesSatisfyList, containsThrowingList]; tauto

end

/-- The extern-linkage callee fact rules out `hasThrowingFunctionDecl`. -/
theorem externLinkageFact_no_throw (c : Option Callable) :
    externLinkageFact c = true → hasThrowingFunctionDecl c = false := by
  cases c with
  | none => simp [externLinkageFact, hasThrowingFunctionDecl]
  | some f => cases hf : f.isExternC <;>
      simp_all [externLinkageFact, hasThrowingFunctionDecl]

/-- The unresolved callee fact rules out `hasThrowingFunctionDecl`. -/
theorem unresolvedFact_no_throw (c : Option Callable) :
    unresolvedFact c = true → hasThrowingFunctionDecl c = false := by
  cases c <;> simp [unresolvedFact, hasThrowingFunctionDecl]

theorem isDecl_eq_false_of_isExpr {m : Node} (h : m.isExpr = true) :
    m.isDecl = false := by
  cases m <;> simp_all [Node.isExpr, Node.isDecl]

/-- A control statement is not one of the parent kinds the `throwingStmt`
parent restriction accepts. -/
theorem attributableParent_eq_false_of_control {q : Node}
    (h : q.isControlStmt = true) : attributableParent (some q) = false := by
  cases q <;>
    simp_all [Node.isControlStmt, Node.isIfStmt, Node.isForStmt, Node.isWhileStmt,
      Node.isSwitchStmt, Node.isDoStmt, attributableParent, Node.isCompoundStmt,
      Node.isAttributedStmt, Node.isCaseStmt]

/-- A node whose parent is a control statement is not `markedStmt`. -/
theorem markedStmt_eq_false_of_control {m q : Node}
    (h : q.isControlStmt = true) : markedStmt m (some q) = false := by
  cases q <;>
    simp_all [Node.isControlStmt, Node.isIfStmt, Node.isForStmt, Node.isWhileStmt,
      Node.isSwitchStmt, Node.isDoStmt, markedStmt]

/-- `markedStmt` forces the node to be a statement, not a declaration. -/
theorem isDecl_eq_false_of_markedStmt {n : Node} {p : Option Node}
    (h : markedStmt n p = true) : n.isDecl = false := by
  have h1 := (Bool.and_eq_true _ _).mp h
  simpa [Node.isStmt] using h1.1

/-- `throwingStmt` forces the node to be a statement, not a declaration. -/
theorem isDecl_eq_false_of_throwingStmt {n : Node} {p : Option Node}
    (h : throwingStmt n p = true) : n.isDecl = false := by
  have h1 := (Bool.and_eq_true _ _).mp ((Bool.and_eq_true _ _).mp
    ((Bool.and_eq_true _ _).mp h).1).1
  simpa [Node.isStmt] using h1.1

/-! ## The claims -/

/-- **C1 (counterexample to the claim as stated).** In the annotation-free
tree `if (...) f();` (`egIfUnbraced`), the unbraced then-branch `f()` is a
statement that is not covered by any ancestor's annotation (the whole tree
carries no annotation), is neither a grouping nor an explicit-throw
statement, matches the throw-potential classification, and is not annotated
— yet the checker emits no missing-mark (indeed no) diagnostic for it, so
the claimed biconditional for statements fails. -/
theorem claim_C1_counterexample :
    markFree egIfUnbraced = true
    ∧ egThrowCall.isCompoundStmt = false
    ∧ egThrowCall.isThrowExpr = false
    ∧ throwingStmtAnyOf egThrowCall = true
    ∧ markedStmt egThrowCall (some egIfUnbraced) = false
    ∧ stmtMissingMark egThrowCall (some egIfUnbraced) = false
    ∧ diagCount egThrowCall (some egIfUnbraced) = 0 := by decide

/-- **C1 (amended).** For every declaration node, the checker emits a
missing-mark diagnostic iff the declaration is classified as able to
propagate an exception (`throwingDecl`) and is not annotated, and a
bad-mark diagnostic iff it is annotated and not so classified.  For every
statement that sits at an attributable position (its direct parent is a
grouping statement, an attribute-wrapper statement, or a case label) and is
not a grouping statement, an explicit-throw statement, a declaration
statement, or an attribute-wrapper statement, the same two biconditionals
hold, with the per-kind throw-potential classification
(`throwingStmtAnyOf`) and the direct-annotation test (`markedStmt`); for
each such node, bad-mark, missing-mark and silence are mutually exclusive
and exhaustive. -/
theorem claim_C1 (n m q : Node)
    (hdecl : n.isDecl = true)
    (hpar : attributableParent (some q) = true)
    (hstmt : m.isStmt = true)
    (hgroup : m.isCompoundStmt = false) (hthrow : m.isThrowExpr = false)
    (hds : m.isDeclStmt = false) (hattr : m.isAttributedStmt = false) :
    declMissingMark n = (throwingDecl n && !markedDecl n)
    ∧ declBadMark n = (markedDecl n && !throwingDecl n)
    ∧ (declMissingMark n && declBadMark n) = false
    ∧ stmtMissingMark m (some q) = (throwingStmtAnyOf m && !markedStmt m (some q))
    ∧ stmtBadMark m (some q) = (markedStmt m (some q) && !throwingStmtAnyOf m)
    ∧ (stmtMissingMark m (some q) && stmtBadMark m (some q)) = false := by
  have hts : throwingStmt m (some q) = throwingStmtAnyOf m := by
    simp [throwingStmt, hstmt, hgroup, hthrow, hds, hattr, hpar]
  refine ⟨?_, ?_, ?_, ?_, ?_, ?_⟩ <;>
    cases hmd : markedDecl n <;> cases htd : throwingDecl n <;>
    cases hms : markedStmt m (some q) <;> cases hta : throwingStmtAnyOf m <;>
    simp_all [declMissingMark, declBadMark, stmtMissingMark, stmtBadMark]

/-- Witness for `claim_C1`: the biconditionals evaluated at a throwing
unmarked variable declaration and at an unmarked throwing call inside a
compound statement. -/
theorem claim_C1_witness :
    declMissingMark (.varDecl [] (some egThrowCall)) =
        (throwingDecl (.varDecl [] (some egThrowCall))
          && !markedDecl (.varDecl [] (some egThrowCall)))
    ∧ declBadMark (.varDecl [] (some egThrowCall)) =
        (markedDecl (.varDecl [] (some egThrowCall))
          && !throwingDecl (.varDecl [] (some egThrowCall)))
    ∧ (declMissingMark (.varDecl [] (some egThrowCall))
        && declBadMark (.varDecl [] (some egThrowCall))) = false
    ∧ stmtMissingMark egThrowCall (some egBodyCompound) =
        (throwingStmtAnyOf egThrowCall
          && !markedStmt egThrowCall (some egBodyCompound))
    ∧ stmtBadMark egThrowCall (some egBodyCompound) =
        (markedStmt egThrowCall (some egBodyCompound)
          && !throwingStmtAnyOf egThrowCall)
    ∧ (stmtMissingMark egThrowCall (some egBodyCompound)
        && stmtBadMark egThrowCall (some egBodyCompound)) = false :=
  claim_C1 (.varDecl [] (some egThrowCall)) egThrowCall egBodyCompound
    (by decide) (by decide) (by decide) (by decide) (by decide) (by decide) (by decide)

/-- **C2.** A call or object construction with a resolved callee is
classified throwing iff the callee's non-throwing fact is false and its
extern-linkage fact is false; consequently an annotated statement whose
calls all resolve to extern-linkage callables (whatever their exception
specification) receives a bad-mark diagnostic. -/
theorem claim_C2 (f : Callable) (c : Option Callable) (args args2 : List Node)
    (n : Node) (p : Option Node)
    (hex : calleesSatisfy externLinkageFact n = true) :
    throwingExpr (.callExpr c args) = hasThrowingFunctionDecl c
    ∧ throwingExpr (.constructExpr c args2) = hasThrowingFunctionDecl c
    ∧ hasThrowingFunctionDecl (some f) = (!f.isNoThrow && !f.isExternC)
    ∧ (markedStmt n p = true → stmtBadMark n p = true)
    ∧ (markedDecl n = true → declBadMark n = true) := by
  have hno := calleesSatisfy_no_throw externLinkageFact externLinkageFact_no_throw n hex
  have hts := throwingStmt_eq_false p hno
  have htd := throwingDecl_eq_false hno
  refine ⟨rfl, rfl, ?_, fun hmk => ?_, fun hmd => ?_⟩
  · cases hnt : f.isNoThrow <;> cases hxc : f.isExternC <;>
      simp_all [hasThrowingFunctionDecl]
  · have hst : n.isStmt = true := by
      simpa [Node.isStmt] using isDecl_eq_false_of_markedStmt hmk
    simp [stmtBadMark, hst, hmk, hts]
  · have hde : n.isDecl = true := by
      cases n <;> simp_all [markedDecl, Node.isDecl]
    simp [declBadMark, hde, hmd, htd]

/-- Witness for `claim_C2`: an annotated call to an extern "C" callable
with no declared exception specification gets a bad-mark diagnostic. -/
theorem claim_C2_witness :
    throwingExpr (.callExpr (some throwingCallee) []) =
        hasThrowingFunctionDecl (some throwingCallee)
    ∧ throwingExpr (.constructExpr (some throwingCallee) []) =
        hasThrowingFunctionDecl (some throwingCallee)
    ∧ hasThrowingFunctionDecl (some externCCallee) =
        (!externCCallee.isNoThrow && !externCCallee.isExternC)
    ∧ stmtBadMark egExternCall (some (egMU egExternCall)) = true
    ∧ declBadMark (.varDecl [.maybeUnhandled] (some egExternCall)) = true :=
  have h1 := claim_C2 externCCallee (some throwingCallee) [] [] egExternCall
    (some (egMU egExternCall)) (by decide)
  have h2 := claim_C2 externCCallee (some throwingCallee) [] []
    (.varDecl [.maybeUnhandled] (some egExternCall)) none (by decide)
  ⟨h1.1, h1.2.1, h1.2.2.1, h1.2.2.2.1 (by decide), h2.2.2.2.2 (by decide)⟩

/-- **C3.** A control statement's own throw-potential classification is
exactly the throw-potential of its controlling expressions (the condition;
for a `for` also the loop init and increment), and is invariant under
replacing the nested body (and else-branch); the body plays no part in the
control statement's own classification or diagnostic outcome. -/
theorem claim_C3 (c b b2 : Node) (e e2 : Option Node) (i ic inc : Option Node)
    (p : Option Node) :
    throwingIfStmt (.ifStmt c b e) = throwingExprSelfOrDescendant c
    ∧ throwingWhileStmt (.whileStmt c b) = throwingExprSelfOrDescendant c
    ∧ throwingDoStmt (.doStmt b c) = throwingExprSelfOrDescendant c
    ∧ throwingSwitchStmt (.switchStmt c b) = throwingExprSelfOrDescendant c
    ∧ throwingForStmt (.forStmt i ic inc b) =
        (throwingOptClause i || throwingOptClause ic || throwingOptClause inc)
    ∧ throwingStmt (.ifStmt c b e) p = throwingStmt (.ifStmt c b2 e2) p
    ∧ throwingStmt (.whileStmt c b) p = throwingStmt (.whileStmt c b2) p
    ∧ throwingStmt (.doStmt b c) p = throwingStmt (.doStmt b2 c) p
    ∧ throwingStmt (.switchStmt c b) p = throwingStmt (.switchStmt c b2) p
    ∧ throwingStmt (.forStmt i ic inc b) p = throwingStmt (.forStmt i ic inc b2) p
    ∧ stmtMissingMark (.ifStmt c b e) p = stmtMissingMark (.ifStmt c b2 e2) p
    ∧ stmtBadMark (.ifStmt c b e) p = stmtBadMark (.ifStmt c b2 e2) p := by
  refine ⟨rfl, rfl, rfl, rfl, rfl, ?_, ?_, ?_, ?_, ?_, ?_, ?_⟩ <;>
    simp [throwingStmt, stmtMissingMark, stmtBadMark, markedStmt, throwingStmtAnyOf,
      throwingIfStmt, throwingForStmt, throwingWhileStmt, throwingSwitchStmt,
      throwingDoStmt, throwingRegularStmt, Node.isStmt, Node.isDecl, Node.isDeclStmt,
      Node.isCompoundStmt, Node.isThrowExpr, Node.isAttributedStmt, Node.isExpr,
      Node.isIfStmt, Node.isForStmt, Node.isWhileStmt, Node.isSwitchStmt, Node.isDoStmt,
      throwingExprSelfOrDescendant]

/-- **C4 (counterexample to the claim as stated).** In
`[[mark]] while (...) [[mark]] { f(); }` (`egRoot`), the throwing call
`f()` is a direct child of the grouping statement `{ f(); }`, that grouping
is the annotated immediate substatement of the annotated control statement,
`f()` can propagate an exception and carries no annotation — and the
checker does emit an independent missing-mark diagnostic for it, so the
child is not covered. -/
theorem claim_C4_counterexample :
    markedStmt egCtrl (some egRoot) = true
    ∧ markedStmt egBodyCompound (some egBodyAttr) = true
    ∧ throwingStmtAnyOf egThrowCall = true
    ∧ markedStmt egThrowCall (some egBodyCompound) = false
    ∧ stmtMissingMark egThrowCall (some egBodyCompound) = true
    ∧ diagCount egThrowCall (some egBodyCompound) = 1 := by decide

/-- **C4 (amended).** A direct child of a grouping statement is never
covered by the grouping's annotation (nor by an enclosing control
statement's): whenever the child is a statement that matches one of the
throw-potential alternatives and is not itself a declaration statement,
grouping statement, explicit-throw statement or attribute-wrapper
statement, it receives its own missing-mark diagnostic. -/
theorem claim_C4 (n : Node) (cs : List Node)
    (hstmt : n.isStmt = true) (hds : n.isDeclStmt = false)
    (hcp : n.isCompoundStmt = false) (hte : n.isThrowExpr = false)
    (hat : n.isAttributedStmt = false)
    (hthrow : throwingStmtAnyOf n = true) :
    stmtMissingMark n (some (.compoundStmt cs)) = true := by
  have hap : attributableParent (some (Node.compoundStmt cs)) = true := by
    simp [attributableParent, Node.isCompoundStmt]
  have hmk : markedStmt n (some (Node.compoundStmt cs)) = false := by
    simp [markedStmt]
  simp [stmtMissingMark, throwingStmt, hstmt, hds, hcp, hte, hat, hthrow, hap, hmk]

/-- Witness for `claim_C4`: the unmarked throwing call inside the (doubly)
annotated body grouping of `egRoot` is flagged. -/
theorem claim_C4_witness :
    stmtMissingMark egThrowCall (some (.compoundStmt [egThrowCall])) = true :=
  claim_C4 egThrowCall [egThrowCall] (by decide) (by decide) (by decide)
    (by decide) (by decide) (by decide)

/-- **C5.** No node ever receives more than one diagnostic: the four
registered matchers are pairwise exclusive on every node, so the per-node
diagnostic count is at most one; and an expression nested directly beneath
a control statement (a condition, in particular, whether or not the control
statement is annotated) receives no diagnostic at all, so a marked covering
control statement's condition never produces a second diagnostic. -/
theorem claim_C5 (n : Node) (p : Option Node) (m q : Node)
    (hexpr : m.isExpr = true) (hctrl : q.isControlStmt = true) :
    diagCount n p ≤ 1 ∧ diagCount m (some q) = 0 := by
  constructor
  · cases hd : n.isDecl
    · have h1 : declBadMark n = false := by simp [declBadMark, hd]
      have h2 : declMissingMark n = false := by simp [declMissingMark, hd]
      cases h3 : markedStmt n p <;> cases h4 : throwingStmt n p <;>
        simp [diagCount, stmtBadMark, stmtMissingMark, Node.isStmt, hd, h1, h2, h3, h4]
    · have h3 : markedStmt n p = false := by
        cases h : markedStmt n p
        · rfl
        · exact absurd (isDecl_eq_false_of_markedStmt h) (by simp [hd])
      have h4 : throwingStmt n p = false := by
        cases h : throwingStmt n p
        · rfl
        · exact absurd (isDecl_eq_false_of_throwingStmt h) (by simp [hd])
      cases h1 : markedDecl n <;> cases h2 : throwingDecl n <;>
        simp [diagCount, declBadMark, declMissingMark, stmtBadMark, stmtMissingMark,
          hd, h1, h2, h3, h4]
  · have hd : m.isDecl = false := isDecl_eq_false_of_isExpr hexpr
    have h3 : markedStmt m (some q) = false := markedStmt_eq_false_of_control hctrl
    have hap : attributableParent (some q) = false :=
      attributableParent_eq_false_of_control hctrl
    have h4 : throwingStmt m (some q) = false := by simp [throwingStmt, hap]
    simp [diagCount, declBadMark, declMissingMark, stmtBadMark, stmtMissingMark,
      hd, h3, h4]

/-- Witness for `claim_C5`: at most one diagnostic on a marked if statement
with a throwing condition, and zero diagnostics on that condition itself. -/
theorem claim_C5_witness :
    diagCount (.ifStmt egThrowCall egBodyCompound none)
        (some (egMU (.ifStmt egThrowCall egBodyCompound none))) ≤ 1
    ∧ diagCount egThrowCall (some (.ifStmt egThrowCall egBodyCompound none)) = 0 :=
  claim_C5 (.ifStmt egThrowCall egBodyCompound none)
    (some (egMU (.ifStmt egThrowCall egBodyCompound none)))
    egThrowCall (.ifStmt egThrowCall egBodyCompound none) (by decide) (by decide)

/-- **C6.** An explicit throw statement is never classified as needing an
annotation and never receives a missing-mark diagnostic, even when the
construction of the thrown value invokes a throwing callable and the
statement carries no annotation. -/
theorem claim_C6 (a : Option Node) (p : Option Node) :
    throwingStmt (.throwExpr a) p = false
    ∧ stmtMissingMark (.throwExpr a) p = false := by
  have h1 : throwingStmt (.throwExpr a) p = false := by
    simp [throwingStmt, Node.isThrowExpr]
  exact ⟨h1, by simp [stmtMissingMark, h1]⟩

/-- **C7.** A call or construction whose callee fact is absent is treated
as non-throwing: it is not a `throwingExpr`, a node all of whose callees
are unresolved contains no throwing expression and never receives a
missing-mark diagnostic (statement or declaration), and if such a node is
annotated it receives a bad-mark diagnostic. -/
theorem claim_C7 (args args2 : List Node) (n : Node) (p : Option Node)
    (hun : calleesSatisfy unresolvedFact n = true) :
    throwingExpr (.callExpr none args) = false
    ∧ throwingExpr (.constructExpr none args2) = false
    ∧ stmtMissingMark n p = false
    ∧ declMissingMark n = false
    ∧ (markedStmt n p = true → stmtBadMark n p = true)
    ∧ (markedDecl n = true → declBadMark n = true) := by
  have hno := calleesSatisfy_no_throw unresolvedFact unresolvedFact_no_throw n hun
  have hts := throwingStmt_eq_false p hno
  have htd := throwingDecl_eq_false hno
  refine ⟨by simp [throwingExpr, hasThrowingFunctionDecl],
    by simp [throwingExpr, hasThrowingFunctionDecl],
    by simp [stmtMissingMark, hts],
    by simp [declMissingMark, htd],
    fun hmk => ?_, fun hmd => ?_⟩
  · have hst : n.isStmt = true := by
      simpa [Node.isStmt] using isDecl_eq_false_of_markedStmt hmk
    simp [stmtBadMark, hst, hmk, hts]
  · have hde : n.isDecl = true := by
      cases n <;> simp_all [markedDecl, Node.isDecl]
    simp [declBadMark, hde, hmd, htd]

/-- Witness for `claim_C7`: an annotated call with an unresolved callee is
never missing-marked and gets a bad-mark diagnostic. -/
theorem claim_C7_witness :
    stmtMissingMark egUnresolvedCall (some (egMU egUnresolvedCall)) = false
    ∧ stmtBadMark egUnresolvedCall (some (egMU egUnresolvedCall)) = true :=
  ⟨(claim_C7 [] [] egUnresolvedCall (some (egMU egUnresolvedCall))
      (by decide)).2.2.1,
   (claim_C7 [] [] egUnresolvedCall (some (egMU egUnresolvedCall))
      (by decide)).2.2.2.2.1 (by decide)⟩

/-- **C8 (counterexample to the claim as stated).** An annotated grouping
statement does receive a diagnostic on the grouping statement itself: the
empty compound `[[clang::maybe_unhandled]] {}` is matched by
`stmt-bad-mark` and gets exactly one diagnostic. -/
theorem claim_C8_counterexample :
    (Node.compoundStmt []).isCompoundStmt = true
    ∧ stmtBadMark (.compoundStmt []) (some (egMU (.compoundStmt []))) = true
    ∧ diagCount (.compoundStmt []) (some (egMU (.compoundStmt []))) = 1 := by
  decide

/-- **C8 (amended).** A grouping (compound) statement is never classified
as throw-potential and never receives a missing-mark diagnostic, regardless
of its contents; only its non-grouping children are classified for
throw-potential.  However, when the grouping statement itself is annotated
it receives a bad-mark diagnostic. -/
theorem claim_C8 (b : List Node) (p : Option Node) :
    throwingStmtAnyOf (.compoundStmt b) = false
    ∧ throwingStmt (.compoundStmt b) p = false
    ∧ stmtMissingMark (.compoundStmt b) p = false
    ∧ (markedStmt (.compoundStmt b) p = true → stmtBadMark (.compoundStmt b) p = true) := by
  have h1 : throwingStmtAnyOf (.compoundStmt b) = false := by
    simp [throwingStmtAnyOf, throwingIfStmt, throwingForStmt, throwingWhileStmt,
      throwingSwitchStmt, throwingDoStmt, throwingRegularStmt,
      throwingExprSelfOrDescendant, Node.isExpr, Node.isIfStmt, Node.isForStmt,
      Node.isWhileStmt, Node.isSwitchStmt, Node.isDoStmt]
  have h2 : throwingStmt (.compoundStmt b) p = false := by
    simp [throwingStmt, Node.isCompoundStmt]
  refine ⟨h1, h2, by simp [stmtMissingMark, h2], fun hmk => ?_⟩
  simp [stmtBadMark, Node.isStmt, Node.isDecl, hmk, h2]

/-- Witness for `claim_C8`: the annotated empty compound statement. -/
theorem claim_C8_witness :
    throwingStmtAnyOf (.compoundStmt [egThrowCall]) = false
    ∧ throwingStmt (.compoundStmt [egThrowCall]) (some (egMU (.compoundStmt [egThrowCall]))) = false
    ∧ stmtMissingMark (.compoundStmt [egThrowCall]) (some (egMU (.compoundStmt [egThrowCall]))) = false
    ∧ stmtBadMark (.compoundStmt [egThrowCall]) (some (egMU (.compoundStmt [egThrowCall]))) = true :=
  have h := claim_C8 [egThrowCall] (some (egMU (.compoundStmt [egThrowCall])))
  ⟨h.1, h.2.1, h.2.2.1, h.2.2.2 (by decide)⟩

/-- **C9.** A statement diagnostic (bad-mark or missing-mark) is emitted
only when the direct parent is a compound statement, an attributed
statement or a case label; in particular a statement whose parent is an if
statement — such as an unbraced single-statement body or the condition — is
never diagnosed by the statement matchers. -/
theorem claim_C9 (n : Node) (p : Option Node) (m c b : Node) (e : Option Node) :
    ((stmtBadMark n p || stmtMissingMark n p) && !attributableParent p) = false
    ∧ stmtBadMark m (some (.ifStmt c b e)) = false
    ∧ stmtMissingMark m (some (.ifStmt c b e)) = false := by
  refine ⟨?_, ?_, ?_⟩
  · cases p with
    | none =>
        simp [stmtBadMark, stmtMissingMark, markedStmt, throwingStmt, attributableParent]
    | some q =>
        cases hap : attributableParent (some q)
        · have hmk : markedStmt n (some q) = false := by
            cases q <;> simp_all [markedStmt, attributableParent, Node.isCompoundStmt,
              Node.isAttributedStmt, Node.isCaseStmt]
          have hth : throwingStmt n (some q) = false := by
            simp [throwingStmt, hap]
          simp [stmtBadMark, stmtMissingMark, hmk, hth]
        · simp [hap]
  · simp [stmtBadMark, markedStmt]
  · simp [stmtMissingMark, throwingStmt, attributableParent, Node.isCompoundStmt,
      Node.isAttributedStmt, Node.isCaseStmt]

/-- **C10.** Declaration throw-potential is recognized only for variable
declarations: a declaration missing-mark diagnostic occurs exactly on an
unannotated variable declaration with a throwing descendant expression,
never on a function declaration (whatever its body); and every annotated
declaration that is not a variable declaration receives a bad-mark
diagnostic. -/
theorem claim_C10 (attrs : List AttrKind) (i b : Option Node) (n m : Node) :
    declMissingMark (.varDecl attrs i) =
        (!hasStmtAttr .maybeUnhandled attrs && containsThrowingOpt i)
    ∧ declMissingMark (.functionDecl attrs b) = false
    ∧ declBadMark (.functionDecl attrs b) = hasStmtAttr .maybeUnhandled attrs
    ∧ (declMissingMark n = true →
        (n.isVarDecl && !markedDecl n && throwingDecl n) = true)
    ∧ (markedDecl m = true → m.isVarDecl = false → declBadMark m = true) := by
  refine ⟨?_, ?_, ?_, ?_, ?_⟩
  · simp [declMissingMark, Node.isDecl, markedDecl, throwingDecl]
  · simp [declMissingMark, Node.isDecl, markedDecl, throwingDecl]
  · simp [declBadMark, Node.isDecl, markedDecl, throwingDecl]
  · cases n <;>
      simp [declMissingMark, Node.isDecl, Node.isVarDecl, markedDecl, throwingDecl]
  · cases m <;>
      simp [declBadMark, Node.isDecl, Node.isVarDecl, markedDecl, throwingDecl]

/-- Witness for `claim_C10`: an annotated function declaration whose body
contains a throwing call receives a bad-mark diagnostic, and an unannotated
throwing variable declaration is exactly the missing-mark shape. -/
theorem claim_C10_witness :
    declMissingMark (.varDecl [] (some egThrowCall)) =
        (!hasStmtAttr .maybeUnhandled [] && containsThrowingOpt (some egThrowCall))
    ∧ declBadMark (.functionDecl [.maybeUnhandled] (some (.compoundStmt [egThrowCall]))) =
        true :=
  have h := claim_C10 [] (some egThrowCall)
    (some (.compoundStmt [egThrowCall]))
    (.varDecl [] (some egThrowCall))
    (.functionDecl [.maybeUnhandled] (some (.compoundStmt [egThrowCall])))
  ⟨h.1, h.2.2.2.2 (by decide) (by decide)⟩

end VisibleExceptionPropagation
